import Mathlib

/-!
Verification of the ai-illustrator-live backend (`server/index.js`).

The server keeps one global mutable `session` object holding the config,
the rolling transcript store, the generated-image list and the generation
flags.  We embed the relevant pure state transformations as Lean
functions over explicit state records; timestamps are `Int` milliseconds
(JS `Date.now()`), and JS falsiness of the config fields is modelled
explicitly (`0` for numbers, `""` for strings, `none` for absent).
-/

namespace AIIllustrator

/-- `TranscriptEntry`: `{ text, timestamp }` pushed by `/api/audio`, or
`{ text, timestamp, itemId }` pushed by `handleRealtimeTranscript`. -/
structure TranscriptEntry where
  text : String
  timestamp : Int
  itemId : Option String := none
  deriving Repr, DecidableEq

/-- The `session.config` object. -/
structure Config where
  summarizationWindowMinutes : Nat
  transcriptWindowMinutes : Nat
  phase : String
  languageMode : String
  workshopType : String
  autoIntervalMinutes : Nat
  imageSize : String
  stylePreset : String
  deriving Repr, DecidableEq

/-- `defaultConfig` from the source. -/
def defaultConfig : Config :=
  { summarizationWindowMinutes := 5
    transcriptWindowMinutes := 10
    phase := "Vision"
    languageMode := "auto"
    workshopType := "NCIM Strategy Workshop"
    autoIntervalMinutes := 5
    imageSize := "1024x1024"
    stylePreset := "Flat, high-contrast illustration with simple shapes suitable for a strategy workshop slide." }

/-- `PHASES` from the source. -/
def PHASES : List String :=
  ["Vision", "Mission", "Strategic objectives", "KPIs", "Other"]

/-- JS `String.prototype.trim`: strip leading and trailing whitespace
(defined over the character list so that it evaluates by kernel
reduction). -/
def jsTrim (s : String) : String :=
  String.mk (((s.data.dropWhile Char.isWhitespace).reverse.dropWhile Char.isWhitespace).reverse)

/-- `trimTranscripts`: keep entries with `timestamp >= Date.now() - transcriptWindowMinutes*60*1000`. -/
def trimTranscripts (cfg : Config) (now : Int) (ts : List TranscriptEntry) : List TranscriptEntry :=
  let cutoff : Int := now - (cfg.transcriptWindowMinutes : Int) * 60 * 1000
  ts.filter (fun entry => cutoff ≤ entry.timestamp)

/-- The entries selected by `getRecentTranscriptText`:
`timestamp >= Date.now() - summarizationWindowMinutes*60*1000`. -/
def getRecentTranscriptEntries (cfg : Config) (now : Int) (ts : List TranscriptEntry) : List TranscriptEntry :=
  let cutoff : Int := now - (cfg.summarizationWindowMinutes : Int) * 60 * 1000
  ts.filter (fun entry => cutoff ≤ entry.timestamp)

/-- `getRecentTranscriptText`: texts of the in-window entries joined with a
space, then trimmed. -/
def getRecentTranscriptText (cfg : Config) (now : Int) (ts : List TranscriptEntry) : String :=
  jsTrim (String.intercalate " " ((getRecentTranscriptEntries cfg now ts).map (fun e => e.text)))

/-- The transcript append performed by `/api/audio` on a non-empty
transcription result: `session.transcripts.push({ text, timestamp: Date.now() })`
followed by `trimTranscripts()`.  An empty result is not persisted. -/
def appendAudioTranscript (cfg : Config) (now : Int) (text : String)
    (ts : List TranscriptEntry) : List TranscriptEntry :=
  if text = "" then ts
  else trimTranscripts cfg now (ts ++ [{ text := text, timestamp := now }])

/-- `Summary`: `{ text, timestamp, phase }` stored in `session.lastSummary`. -/
structure Summary where
  text : String
  timestamp : Int
  phase : String
  deriving Repr, DecidableEq

/-- `GeneratedImage`: the item built by `runGeneration` and mutated in place
by the image PATCH/DELETE routes. -/
structure GeneratedImage where
  id : String
  promptText : String
  summary : String
  phase : String
  createdAt : Int
  size : String
  pinned : Bool
  deleted : Bool
  url : String
  deriving Repr, DecidableEq

/-- The global `session` object (the realtime connection sub-state is not
needed for these claims; note the source object has no lifecycle-epoch
field). -/
structure Session where
  active : Bool
  apiKey : Option String
  config : Config
  transcripts : List TranscriptEntry
  images : List GeneratedImage
  lastSummary : Option Summary
  lastPrompt : Option String
  generationInProgress : Bool
  pendingTrigger : Bool
  lastError : Option String
  deriving Repr, DecidableEq

/-- `resetSession`: replaces the module-level `session` binding with a fresh
inactive object. -/
def resetSession : Session :=
  { active := false
    apiKey := none
    config := defaultConfig
    transcripts := []
    images := []
    lastSummary := none
    lastPrompt := none
    generationInProgress := false
    pendingTrigger := false
    lastError := none }

/-- The image insertion of `runGeneration`:
`session.images.unshift(item); if (session.images.length > 20) session.images = session.images.slice(0, 20)`. -/
def insertImage (item : GeneratedImage) (images : List GeneratedImage) : List GeneratedImage :=
  let l := item :: images
  if l.length > 20 then l.take 20 else l

/-- The three fallible remote stages consumed by `runGeneration`, treated as
opaque services: `summariseTranscript`, `createImagePrompt` and the raw image
response body of `client.images.generate` (`.ok none` models a response with
no `b64_json` payload). -/
structure StageOracle where
  summarise : String → Except String String
  buildPromptStage : String → Except String String
  renderB64 : String → Except String (Option String)

/-- `generateImage`: calls the render service and fails with
`No image data returned from OpenAI` when the response carries no payload;
otherwise produces the data URL. -/
def generateImage (o : StageOracle) (promptText : String) : Except String String :=
  match o.renderB64 promptText with
  | .error e => .error e
  | .ok none => .error "No image data returned from OpenAI"
  | .ok (some b64) => .ok ("data:image/png;base64," ++ b64)

/-- `runGeneration`: guards (`active`, non-empty window text), then the three
sequential stages, mutating `lastSummary`, `lastPrompt` and `images` as the
source does; returns the updated session and the thrown error or the item. -/
def runGeneration (o : StageOracle) (now : Int) (newId : String) (s : Session) :
    Session × Except String GeneratedImage :=
  if s.active = false then (s, .error "No active session")
  else
    let transcript := getRecentTranscriptText s.config now s.transcripts
    if transcript = "" then (s, .error "Not enough transcript to generate")
    else
      match o.summarise transcript with
      | .error e => (s, .error e)
      | .ok summary =>
        let s₁ := { s with lastSummary := some { text := summary, timestamp := now, phase := s.config.phase } }
        match o.buildPromptStage summary with
        | .error e => (s₁, .error e)
        | .ok promptText =>
          let s₂ := { s₁ with lastPrompt := some promptText }
          match generateImage o promptText with
          | .error e => (s₂, .error e)
          | .ok url =>
            let item : GeneratedImage :=
              { id := newId
                promptText := promptText
                summary := summary
                phase := s₂.config.phase
                createdAt := now
                size := s₂.config.imageSize
                pinned := false
                deleted := false
                url := url }
            ({ s₂ with images := insertImage item s₂.images }, .ok item)

/-- Responses of `POST /api/generate`. -/
inductive GenerateResponse where
  | noSession
  | queued
  | ok (item : GeneratedImage)
  | genError (msg : String)
  deriving Repr, DecidableEq

/-- The queued rerun started from the handler's `finally` block:
`runGeneration().catch(err => session.lastError = err.message)` — note it is
not preceded by `generationInProgress = true` and nothing runs after it. -/
def rerunQueued (o : StageOracle) (now : Int) (newId : String) (s : Session) : Session :=
  match runGeneration o now newId s with
  | (s', .ok _) => s'
  | (s', .error e) => { s' with lastError := some e }

/-- `POST /api/generate`, with the handler body and its `finally` block run
to completion atomically (the interleaved behaviour of the busy window is
modelled separately by `OrchState`).  `newId`/`rerunId` stand for the fresh
`uuid()` of each run. -/
def postGenerate (o : StageOracle) (now : Int) (newId rerunId : String) (s : Session) :
    Session × GenerateResponse :=
  if s.active = false then (s, .noSession)
  else if s.generationInProgress then ({ s with pendingTrigger := true }, .queued)
  else
    let s₁ := { s with generationInProgress := true, lastError := none }
    let (s₂, result) := runGeneration o now newId s₁
    let (s₃, resp) :=
      match result with
      | .ok item => (s₂, GenerateResponse.ok item)
      | .error e => ({ s₂ with lastError := some e }, GenerateResponse.genError e)
    let s₄ := { s₃ with generationInProgress := false }
    if s₄.pendingTrigger then
      (rerunQueued o now rerunId { s₄ with pendingTrigger := false }, resp)
    else (s₄, resp)

/-- Kind of a pipeline execution in flight: a run started by the guarded
handler path of `POST /api/generate` (whose `finally` block will run on
completion), or the queued rerun fired from that `finally` block (which has
only a `.catch`, no `finally`). -/
inductive RunKind where
  | handler
  | rerun
  deriving Repr, DecidableEq

/-- Interleaving model of the generation orchestrator: the two flags plus
the multiset (as a list) of `runGeneration` executions currently in flight.
The pipeline body is abstracted away — only the concurrency discipline of
the handler (guard, flag updates, `finally` block) is modelled. -/
structure OrchState where
  inProgress : Bool
  pendingTrigger : Bool
  running : List RunKind
  deriving Repr, DecidableEq

/-- A trigger (`POST /api/generate` on an active session): when
`generationInProgress` is set it only records `pendingTrigger` and answers
queued; otherwise it sets the flag and a new handler execution begins. -/
def triggerStep (s : OrchState) : OrchState × Bool :=
  if s.inProgress then ({ s with pendingTrigger := true }, true)
  else ({ s with inProgress := true, running := RunKind.handler :: s.running }, false)

/-- Completion (success or failure) of the `i`-th in-flight execution.  A
handler run executes its `finally` block: clear `inProgress`, and when
`pendingTrigger` is set, clear it and fire exactly one rerun — which is
started without setting `inProgress`.  A rerun's completion runs no
`finally` block at all. -/
def completeStep (s : OrchState) (i : Nat) : OrchState :=
  match s.running.get? i with
  | none => s
  | some k =>
    let s₁ := { s with running := s.running.eraseIdx i }
    match k with
    | RunKind.handler =>
      let s₂ := { s₁ with inProgress := false }
      if s₂.pendingTrigger then
        { s₂ with pendingTrigger := false, running := RunKind.rerun :: s₂.running }
      else s₂
    | RunKind.rerun => s₁

/-- `n` consecutive triggers; returns the final state and the list of
queued-flags returned to the callers. -/
def triggerN : Nat → OrchState → OrchState × List Bool
  | 0, s => (s, [])
  | n + 1, s =>
    let (s₁, q) := triggerStep s
    let (s₂, qs) := triggerN n s₁
    (s₂, q :: qs)

/-- The continuation of `runGeneration` resumed when `summariseTranscript`
resolves: `session.lastSummary = { text, timestamp: Date.now(), phase }`.
`session` is the module-level binding, so a completion resolving after
`resetSession` replaced it writes into the current (new) session object;
the source has no lifecycle-epoch check here. -/
def summariseResolves (now : Int) (summary : String) (s : Session) : Session :=
  { s with lastSummary := some { text := summary, timestamp := now, phase := s.config.phase } }

/-- A character kept by `cleaned.replace(/[^A-Za-z؀-ۿ]/g, '')`:
ASCII letters and the Arabic block U+0600–U+06FF. -/
def isAlphaChar (c : Char) : Bool :=
  (decide ('A' ≤ c) && decide (c ≤ 'Z')) ||
  (decide ('a' ≤ c) && decide (c ≤ 'z')) ||
  (decide (0x600 ≤ c.toNat) && decide (c.toNat ≤ 0x6FF))

/-- `alphaCount` of `sanitizeTranscript`. -/
def alphaCount (s : String) : Nat :=
  (s.toList.filter isAlphaChar).length

/-- `sanitizeTranscript` (the `server/index.js` version): trims, rejects the
empty string, a string matching `^[\p{P}\p{S}]+$` (the Unicode
punctuation/symbol classes, abstracted as the classifier `isPunctOrSym`),
and a string of length `< 3` with `alphaCount < 2`; otherwise keeps the
trimmed text. -/
def sanitizeTranscript (isPunctOrSym : Char → Bool) (text : String) : String :=
  let cleaned := jsTrim text
  if cleaned = "" then ""
  else if cleaned.toList.all isPunctOrSym then ""
  else if cleaned.length < 3 ∧ alphaCount cleaned < 2 then ""
  else cleaned

/-- `maybePolishTranscript`: sanitize, short-circuit on empty / mock mode /
polish disabled, otherwise run the cleanup completion (opaque `polish`
service; `.error` models the remote call throwing, in which case the
sanitized text is kept) and re-sanitize `polished || sanitized`. -/
def maybePolishTranscript (isPunctOrSym : Char → Bool) (mock enablePolish : Bool)
    (polish : String → Except Unit String) (text : String) : String :=
  let sanitized := sanitizeTranscript isPunctOrSym text
  if sanitized = "" then ""
  else if mock then sanitized
  else if enablePolish = false then sanitized
  else
    match polish sanitized with
    | .error _ => sanitized
    | .ok resp =>
      let polished := jsTrim resp
      sanitizeTranscript isPunctOrSym (if polished = "" then sanitized else polished)

/-- `handleRealtimeTranscript` restricted to the transcript store: an empty
polished result persists nothing; otherwise exactly one entry
`{ text, timestamp: Date.now(), itemId }` is pushed and `trimTranscripts`
runs. -/
def handleRealtimeTranscript (isPunctOrSym : Char → Bool) (mock enablePolish : Bool)
    (polish : String → Except Unit String) (cfg : Config) (now : Int)
    (itemId : String) (rawText : String) (ts : List TranscriptEntry) : List TranscriptEntry :=
  let text := maybePolishTranscript isPunctOrSym mock enablePolish polish rawText
  if text = "" then ts
  else trimTranscripts cfg now (ts ++ [{ text := text, timestamp := now, itemId := some itemId }])

/-- Result of the image PATCH/DELETE routes. -/
inductive ImageApiResult where
  | ok
  | notFound (msg : String)
  deriving Repr, DecidableEq

/-- Update the first element satisfying `p` in place (JS `Array.find` returns
the first match, which the route then mutates). -/
def updateFirst (p : α → Bool) (f : α → α) : List α → List α
  | [] => []
  | x :: xs => if p x then f x :: xs else x :: updateFirst p f xs

/-- `PATCH /api/images/:id`: find the image; missing id → 404
`Image not found` with no mutation; otherwise set `pinned` when the body
carries a boolean. -/
def patchImage (id : String) (pinned : Option Bool) (images : List GeneratedImage) :
    List GeneratedImage × ImageApiResult :=
  match images.find? (fun img => img.id = id) with
  | none => (images, .notFound "Image not found")
  | some _ =>
    (updateFirst (fun img => img.id = id)
      (fun img => match pinned with
        | some b => { img with pinned := b }
        | none => img) images, .ok)

/-- `DELETE /api/images/:id`: find the image; missing id → 404
`Image not found` with no mutation; otherwise mark `deleted = true`. -/
def deleteImage (id : String) (images : List GeneratedImage) :
    List GeneratedImage × ImageApiResult :=
  match images.find? (fun img => img.id = id) with
  | none => (images, .notFound "Image not found")
  | some _ =>
    (updateFirst (fun img => img.id = id) (fun img => { img with deleted := true }) images, .ok)

/-- `PATCH /api/images/:id` lifted to the session (it touches only
`session.images`). -/
def patchImageSession (id : String) (pinned : Option Bool) (s : Session) :
    Session × ImageApiResult :=
  let (imgs, r) := patchImage id pinned s.images
  ({ s with images := imgs }, r)

/-- The JSON body of `POST /api/config` (only the fields the handler
destructures; `none` = absent). -/
structure ConfigBody where
  phase : Option String := none
  autoIntervalMinutes : Option Nat := none
  imageSize : Option String := none
  stylePreset : Option String := none
  summarizationWindowMinutes : Option Nat := none
  deriving Repr, DecidableEq

/-- JS `x || prev` for a string field (`undefined`, `null` and `""` are
falsy). -/
def jsOrString (v : Option String) (prev : String) : String :=
  match v with
  | none => prev
  | some x => if x = "" then prev else x

/-- JS `x || prev` for a numeric field (`undefined`, `null` and `0` are
falsy). -/
def jsOrNat (v : Option Nat) (prev : Nat) : Nat :=
  match v with
  | none => prev
  | some x => if x = 0 then prev else x

/-- `setSessionConfig(updates)`: spread-merge, then normalize an invalid
phase to `Vision` and restore falsy window fields to their defaults.  The
argument is the full update object built by a caller. -/
def setSessionConfig (merged : Config) : Config :=
  let c₁ := if PHASES.contains merged.phase then merged else { merged with phase := "Vision" }
  let c₂ :=
    if c₁.summarizationWindowMinutes = 0 then
      { c₁ with summarizationWindowMinutes := defaultConfig.summarizationWindowMinutes }
    else c₁
  if c₂.transcriptWindowMinutes = 0 then
    { c₂ with transcriptWindowMinutes := defaultConfig.transcriptWindowMinutes }
  else c₂

/-- `POST /api/config` on an active session: each provided-or-previous field
is computed with JS `||`, `transcriptWindowMinutes` is passed through
unchanged, and `setSessionConfig` merges and normalizes. -/
def applyConfigUpdate (c : Config) (body : ConfigBody) : Config :=
  setSessionConfig
    { c with
      phase := jsOrString body.phase c.phase
      autoIntervalMinutes := jsOrNat body.autoIntervalMinutes c.autoIntervalMinutes
      imageSize := jsOrString body.imageSize c.imageSize
      stylePreset := jsOrString body.stylePreset c.stylePreset
      summarizationWindowMinutes := jsOrNat body.summarizationWindowMinutes c.summarizationWindowMinutes
      transcriptWindowMinutes := c.transcriptWindowMinutes }

/-- Concrete oracle whose three stages always succeed (the behaviour of
`createMockClient`). -/
def okOracle : StageOracle :=
  { summarise := fun _ => .ok "mock summary"
    buildPromptStage := fun _ => .ok "mock prompt"
    renderB64 := fun _ => .ok (some "AAAA") }

/-- An active session holding one transcript entry, for concrete runs. -/
def liveSession : Session :=
  { resetSession with active := true, transcripts := [{ text := "hello world", timestamp := 0 }] }

/-- The image record `runGeneration okOracle 0 "img-1" liveSession` builds. -/
def genItemFixture : GeneratedImage :=
  { id := "img-1"
    promptText := "mock prompt"
    summary := "mock summary"
    phase := "Vision"
    createdAt := 0
    size := "1024x1024"
    pinned := false
    deleted := false
    url := "data:image/png;base64,AAAA" }

/-- A stored image, for the image-mutation routes. -/
def imgFixture : GeneratedImage :=
  { id := "img-1"
    promptText := "p"
    summary := "s"
    phase := "Vision"
    createdAt := 0
    size := "1024x1024"
    pinned := false
    deleted := false
    url := "u" }

/-- A config-update body whose provided fields are all falsy. -/
def falsyBody : ConfigBody :=
  { phase := some ""
    autoIntervalMinutes := some 0
    imageSize := none
    stylePreset := some ""
    summarizationWindowMinutes := none }

section Lemmas

/-- Membership in the trimmed store is membership plus the window bound. -/
theorem mem_trimTranscripts {cfg : Config} {now : Int} {l : List TranscriptEntry}
    {e : TranscriptEntry} :
    e ∈ trimTranscripts cfg now l ↔
      e ∈ l ∧ now - (cfg.transcriptWindowMinutes : Int) * 60 * 1000 ≤ e.timestamp := by
  simp [trimTranscripts]

/-- `insertImage` is prepend-then-keep-the-20-newest. -/
theorem insertImage_eq_take (item : GeneratedImage) (l : List GeneratedImage) :
    insertImage item l = (item :: l).take 20 := by
  unfold insertImage
  dsimp only
  split
  · rfl
  · rw [List.take_of_length_le (by omega)]

/-- `setSessionConfig` normalizes the phase and touches nothing else of it. -/
theorem setSessionConfig_phase (m : Config) :
    (setSessionConfig m).phase = if PHASES.contains m.phase then m.phase else "Vision" := by
  unfold setSessionConfig
  dsimp only
  repeat' split <;> try rfl

/-- `setSessionConfig` leaves `autoIntervalMinutes` unchanged. -/
theorem setSessionConfig_autoInterval (m : Config) :
    (setSessionConfig m).autoIntervalMinutes = m.autoIntervalMinutes := by
  unfold setSessionConfig
  dsimp only
  repeat' split <;> try rfl

/-- `setSessionConfig` restores a falsy summarization window to its default. -/
theorem setSessionConfig_summWindow (m : Config) :
    (setSessionConfig m).summarizationWindowMinutes =
      if m.summarizationWindowMinutes = 0 then defaultConfig.summarizationWindowMinutes
      else m.summarizationWindowMinutes := by
  unfold setSessionConfig
  dsimp only
  repeat' split <;> try rfl

/-- `setSessionConfig` restores a falsy transcript window to its default. -/
theorem setSessionConfig_transcriptWindow (m : Config) :
    (setSessionConfig m).transcriptWindowMinutes =
      if m.transcriptWindowMinutes = 0 then defaultConfig.transcriptWindowMinutes
      else m.transcriptWindowMinutes := by
  unfold setSessionConfig
  dsimp only
  repeat' split <;> try rfl

/-- `setSessionConfig` leaves the remaining fields unchanged. -/
theorem setSessionConfig_rest (m : Config) :
    (setSessionConfig m).languageMode = m.languageMode ∧
    (setSessionConfig m).workshopType = m.workshopType ∧
    (setSessionConfig m).imageSize = m.imageSize ∧
    (setSessionConfig m).stylePreset = m.stylePreset := by
  refine ⟨?_, ?_, ?_, ?_⟩ <;>
    (unfold setSessionConfig; dsimp only; repeat' split <;> try rfl)

/-- Every trigger issued while `inProgress` is set answers queued and only
records the pending flag. -/
theorem triggerN_busy (n : Nat) (s : OrchState) (hip : s.inProgress = true) :
    triggerN (n + 1) s = ({ s with pendingTrigger := true }, List.replicate (n + 1) true) := by
  induction n generalizing s with
  | zero => simp [triggerN, triggerStep, hip]
  | succ n ih =>
    have step : triggerStep s = ({ s with pendingTrigger := true }, true) := by
      simp [triggerStep, hip]
    have ihs := ih { s with pendingTrigger := true } hip
    unfold triggerN
    rw [step]
    dsimp only
    rw [ihs]
    simp [List.replicate_succ]

end Lemmas

/-- C1.  Collapsing single-flight: from a state where a handler-started
pipeline run is in progress (`generationInProgress` set, exactly that run in
flight), every one of `n ≥ 1` further triggers answers queued, and the only
state change they make is setting `pendingTrigger`; when the in-progress run
completes (success or failure alike), exactly one additional run (the rerun)
is started, regardless of `n`. -/
theorem generate_triggers_collapse (n : Nat) (hn : 1 ≤ n) (s : OrchState)
    (hip : s.inProgress = true) (hrun : s.running = [RunKind.handler]) :
    (triggerN n s).2 = List.replicate n true ∧
    (triggerN n s).1 = { s with pendingTrigger := true } ∧
    completeStep (triggerN n s).1 0 =
      { inProgress := false, pendingTrigger := false, running := [RunKind.rerun] } := by
  obtain ⟨m, rfl⟩ : ∃ m, n = m + 1 := ⟨n - 1, by omega⟩
  have h := triggerN_busy m s hip
  refine ⟨by rw [h], by rw [h], ?_⟩
  rw [h]
  simp [completeStep, hrun, List.eraseIdx]

/-- Witness for C1 at `n = 3` and a concrete busy state. -/
theorem generate_triggers_collapse_witness :
    (triggerN 3 { inProgress := true, pendingTrigger := false, running := [RunKind.handler] }).2 =
      List.replicate 3 true ∧
    (triggerN 3 { inProgress := true, pendingTrigger := false, running := [RunKind.handler] }).1 =
      { inProgress := true, pendingTrigger := true, running := [RunKind.handler] } ∧
    completeStep
        (triggerN 3 { inProgress := true, pendingTrigger := false, running := [RunKind.handler] }).1 0 =
      { inProgress := false, pendingTrigger := false, running := [RunKind.rerun] } :=
  generate_triggers_collapse 3 (by decide)
    { inProgress := true, pendingTrigger := false, running := [RunKind.handler] }
    (by decide) (by decide)

/-- C2 is violated by the code: the queued rerun fired from the handler's
`finally` block runs with `generationInProgress = false` (state `s₃`: one
pipeline execution in flight while the flag is clear), so a further trigger
starts a second concurrent `runGeneration` (state `s₄`: two executions in
flight).  Trace: trigger, trigger (queued), first run completes, trigger. -/
theorem rerun_breaks_mutual_exclusion :
    (completeStep
        (triggerStep
          (triggerStep { inProgress := false, pendingTrigger := false, running := [] }).1).1
        0).running = [RunKind.rerun] ∧
    (completeStep
        (triggerStep
          (triggerStep { inProgress := false, pendingTrigger := false, running := [] }).1).1
        0).inProgress = false ∧
    (triggerStep
        (completeStep
          (triggerStep
            (triggerStep { inProgress := false, pendingTrigger := false, running := [] }).1).1
          0)).1.running.length = 2 := by
  decide

/-- C3 is violated by the code: the session object carries no lifecycle
epoch, and the continuation of `runGeneration` resumed when
`summariseTranscript` resolves writes `session.lastSummary` through the
module-level `session` binding with no staleness check — so a stage that
resolves after `resetSession` has replaced the session mutates the fresh
(inactive) session instead of discarding its result. -/
theorem stale_summary_mutates_reset_session :
    (summariseResolves 1000 "mock summary" resetSession).active = false ∧
    (summariseResolves 1000 "mock summary" resetSession).lastSummary =
      some { text := "mock summary", timestamp := 1000, phase := "Vision" } := by
  decide

/-- C4 (amended).  Both transcript appends — the `/api/audio` persist and the
realtime `handleRealtimeTranscript` persist — run `trimTranscripts` as their
last step, so immediately afterwards no stored entry is older than the
configured transcript window relative to the append time.  (Mutating calls
that do not touch the transcript store never trim — see
`pin_leaves_stale_entry`.) -/
theorem append_respects_transcript_window
    (isP : Char → Bool) (mock enablePolish : Bool) (polish : String → Except Unit String)
    (cfg : Config) (now : Int) (text rawText itemId : String)
    (ts ts' : List TranscriptEntry)
    (htext : text ≠ "")
    (hraw : maybePolishTranscript isP mock enablePolish polish rawText ≠ "") :
    (∀ e ∈ appendAudioTranscript cfg now text ts,
      now - e.timestamp ≤ (cfg.transcriptWindowMinutes : Int) * 60 * 1000) ∧
    (∀ e ∈ handleRealtimeTranscript isP mock enablePolish polish cfg now itemId rawText ts',
      now - e.timestamp ≤ (cfg.transcriptWindowMinutes : Int) * 60 * 1000) := by
  constructor
  · intro e he
    rw [appendAudioTranscript, if_neg htext] at he
    have h := (mem_trimTranscripts.mp he).2
    omega
  · intro e he
    simp only [handleRealtimeTranscript] at he
    rw [if_neg hraw] at he
    have h := (mem_trimTranscripts.mp he).2
    omega

/-- Witness for C4's theorem: the entry appended by `/api/audio` at time 0
satisfies the window bound. -/
theorem append_respects_transcript_window_witness :
    (0 : Int) - ({ text := "hello", timestamp := 0, itemId := none } : TranscriptEntry).timestamp ≤
      (defaultConfig.transcriptWindowMinutes : Int) * 60 * 1000 :=
  (append_respects_transcript_window (fun _ => false) true true (fun _ => .error ())
      defaultConfig 0 "hello" "hello" "it-1" [] [] (by decide) (by decide)).1
    { text := "hello", timestamp := 0, itemId := none } (by decide)

/-- Counterexample to C4 as stated: pinning an image is a mutating call on
the session, but it runs no trim; with the default 10-minute window, the
entry stored at time 0 is still present after the pin succeeds, and at the
current time 1 200 000 ms (20 minutes) it is older than the window. -/
theorem pin_leaves_stale_entry :
    (patchImageSession "img-1" (some true)
        { liveSession with images := [imgFixture] }).2 = ImageApiResult.ok ∧
    (patchImageSession "img-1" (some true)
        { liveSession with images := [imgFixture] }).1.transcripts =
      [{ text := "hello world", timestamp := 0, itemId := none }] ∧
    (1200000 : Int) - (0 : Int) >
      ((patchImageSession "img-1" (some true)
          { liveSession with images := [imgFixture] }).1.config.transcriptWindowMinutes : Int)
        * 60 * 1000 := by
  decide

/-- C5 (amended).  Triggering generation when the summarization-window text
is empty fails with the `Not enough transcript to generate` error for every
stage oracle — i.e. before any remote stage runs — leaving the whole session
unchanged except for the cleared flag and `lastError`, which is set to that
message; in particular the image list is untouched. -/
theorem empty_window_generation_fails
    (o : StageOracle) (now : Int) (newId rerunId : String) (s : Session)
    (hactive : s.active = true) (hflag : s.generationInProgress = false)
    (hpend : s.pendingTrigger = false)
    (hempty : getRecentTranscriptText s.config now s.transcripts = "") :
    postGenerate o now newId rerunId s =
      ({ s with
          generationInProgress := false
          lastError := some "Not enough transcript to generate" },
       GenerateResponse.genError "Not enough transcript to generate") := by
  simp [postGenerate, runGeneration, hactive, hflag, hpend, hempty]

/-- Witness for C5's theorem at a concrete active session with an empty
store. -/
theorem empty_window_generation_fails_witness :
    postGenerate okOracle 0 "a" "b" { resetSession with active := true } =
      ({ resetSession with
          active := true
          generationInProgress := false
          lastError := some "Not enough transcript to generate" },
       GenerateResponse.genError "Not enough transcript to generate") :=
  empty_window_generation_fails okOracle 0 "a" "b" { resetSession with active := true }
    (by decide) (by decide) (by decide) (by decide)

/-- Counterexample to C5 as stated: the failure message the code produces
(and stores in `lastError`) is `Not enough transcript to generate`, not
`insufficient transcript`. -/
theorem empty_window_error_message :
    (postGenerate okOracle 0 "a" "b" { resetSession with active := true }).2 =
      GenerateResponse.genError "Not enough transcript to generate" ∧
    (postGenerate okOracle 0 "a" "b" { resetSession with active := true }).1.lastError =
      some "Not enough transcript to generate" ∧
    (postGenerate okOracle 0 "a" "b" { resetSession with active := true }).2 ≠
      GenerateResponse.genError "insufficient transcript" := by
  decide

/-- C6.  On every successful generation run the new image is prepended and
the list is truncated to the 20 most recent items: the result is exactly
`take 20` of the prepended list (so its length never exceeds 20 and its head
is the new item), and the eviction is purely positional — any re-flagging of
`pinned`/`deleted` fields commutes with the insertion, so pin state plays no
role in which entries survive. -/
theorem success_prepends_and_evicts_by_recency
    (o : StageOracle) (now : Int) (newId : String) (s s' : Session) (item : GeneratedImage)
    (h : runGeneration o now newId s = (s', .ok item)) :
    s'.images = (item :: s.images).take 20 ∧
    s'.images.length ≤ 20 ∧
    s'.images.head? = some item ∧
    (∀ f : GeneratedImage → GeneratedImage,
      (insertImage item s.images).map f = insertImage (f item) (s.images.map f)) := by
  have himg : s'.images = insertImage item s.images := by
    unfold runGeneration at h
    split at h
    · simp at h
    · dsimp only at h
      split at h
      · simp at h
      · split at h
        · simp at h
        · split at h
          · simp at h
          · split at h
            · simp at h
            · rw [Prod.mk.injEq] at h
              obtain ⟨hs, hi⟩ := h
              obtain rfl : _ = item := Except.ok.inj hi
              rw [← hs]
  refine ⟨?_, ?_, ?_, ?_⟩
  · rw [himg, insertImage_eq_take]
  · rw [himg, insertImage_eq_take]
    simp [List.length_take]
  · rw [himg, insertImage_eq_take]
    rfl
  · intro f
    rw [insertImage_eq_take, insertImage_eq_take]
    simp [List.map_take]

/-- Witness for C6 at a concrete successful run. -/
theorem success_prepends_and_evicts_by_recency_witness :
    ((runGeneration okOracle 0 "img-1" liveSession).1).images =
      (genItemFixture :: liveSession.images).take 20 ∧
    ((runGeneration okOracle 0 "img-1" liveSession).1).images.length ≤ 20 ∧
    ((runGeneration okOracle 0 "img-1" liveSession).1).images.head? = some genItemFixture := by
  have h := success_prepends_and_evicts_by_recency okOracle 0 "img-1" liveSession
    (runGeneration okOracle 0 "img-1" liveSession).1 genItemFixture (by rfl)
  exact ⟨h.1, h.2.1, h.2.2.1⟩

/-- C7.  A finalized recognition result whose trimmed text is empty,
punctuation/symbol-only, or very short with low alphabetic content is
rejected by `sanitizeTranscript` and `handleRealtimeTranscript` persists
nothing; every surviving non-empty result is persisted as exactly one new
entry appended to the (trimmed) store. -/
theorem sanitize_and_persist_once
    (isP : Char → Bool) (mock enablePolish : Bool) (polish : String → Except Unit String)
    (cfg : Config) (now : Int) (itemId rawText : String) (ts : List TranscriptEntry) :
    ((jsTrim rawText = "" ∨ (jsTrim rawText).toList.all isP = true ∨
        ((jsTrim rawText).length < 3 ∧ alphaCount (jsTrim rawText) < 2)) →
      handleRealtimeTranscript isP mock enablePolish polish cfg now itemId rawText ts = ts) ∧
    (maybePolishTranscript isP mock enablePolish polish rawText ≠ "" →
      handleRealtimeTranscript isP mock enablePolish polish cfg now itemId rawText ts =
        trimTranscripts cfg now ts ++
          [{ text := maybePolishTranscript isP mock enablePolish polish rawText,
             timestamp := now, itemId := some itemId }]) := by
  constructor
  · intro hcond
    have hsan : sanitizeTranscript isP rawText = "" := by
      unfold sanitizeTranscript
      dsimp only
      by_cases h1 : jsTrim rawText = ""
      · rw [if_pos h1]
      · rw [if_neg h1]
        rcases hcond with h | h | h
        · exact absurd h h1
        · rw [if_pos h]
        · by_cases h2 : (jsTrim rawText).toList.all isP = true
          · rw [if_pos h2]
          · rw [if_neg h2, if_pos h]
    have hmp : maybePolishTranscript isP mock enablePolish polish rawText = "" := by
      unfold maybePolishTranscript
      simp [hsan]
    simp [handleRealtimeTranscript, hmp]
  · intro hne
    have hkeep : now - (cfg.transcriptWindowMinutes : Int) * 60 * 1000 ≤ now := by
      have h0 : (0 : Int) ≤ (cfg.transcriptWindowMinutes : Int) * 60 * 1000 := by positivity
      omega
    simp [handleRealtimeTranscript, trimTranscripts, List.filter_append, hne, hkeep]

/-- Witness for C7: whitespace-only input persists nothing; `hello`
survives and is appended as one entry. -/
theorem sanitize_and_persist_once_witness :
    handleRealtimeTranscript (fun _ => false) true true (fun _ => .error ())
        defaultConfig 0 "it-1" "   " [] = [] ∧
    handleRealtimeTranscript (fun _ => false) true true (fun _ => .error ())
        defaultConfig 0 "it-1" "hello" [] =
      trimTranscripts defaultConfig 0 [] ++
        [{ text := maybePolishTranscript (fun _ => false) true true (fun _ => .error ()) "hello",
           timestamp := 0, itemId := some "it-1" }] := by
  refine ⟨?_, ?_⟩
  · exact (sanitize_and_persist_once (fun _ => false) true true (fun _ => .error ())
      defaultConfig 0 "it-1" "   " []).1 (Or.inl (by decide))
  · exact (sanitize_and_persist_once (fun _ => false) true true (fun _ => .error ())
      defaultConfig 0 "it-1" "hello" []).2 (by decide)

/-- C8.  Window monotonicity: when the summarization window is at most the
transcript window, every entry contributing to `getRecentTranscriptText`
also survives `trimTranscripts` — the summarization view is a subset of the
transcript-window view. -/
theorem summarization_window_subset
    (cfg : Config) (now : Int) (ts : List TranscriptEntry)
    (h : cfg.summarizationWindowMinutes ≤ cfg.transcriptWindowMinutes) :
    ∀ e ∈ getRecentTranscriptEntries cfg now ts, e ∈ trimTranscripts cfg now ts := by
  intro e he
  simp only [getRecentTranscriptEntries, List.mem_filter, decide_eq_true_eq] at he
  rw [mem_trimTranscripts]
  refine ⟨he.1, ?_⟩
  have hcut := he.2
  omega

/-- Witness for C8 with the default windows (5 ≤ 10 minutes). -/
theorem summarization_window_subset_witness :
    ({ text := "x", timestamp := 0, itemId := none } : TranscriptEntry) ∈
      trimTranscripts defaultConfig 0 [{ text := "x", timestamp := 0, itemId := none }] :=
  summarization_window_subset defaultConfig 0
    [{ text := "x", timestamp := 0, itemId := none }] (by decide)
    { text := "x", timestamp := 0, itemId := none } (by decide)

/-- C9.  Unknown-image atomicity: a pin/unpin PATCH or a soft-delete whose
id matches no stored image answers 404 `Image not found` and returns the
image list unchanged — no image's fields are touched. -/
theorem unknown_image_id_not_found (id : String) (pinned : Option Bool)
    (images : List GeneratedImage) (h : ∀ img ∈ images, img.id ≠ id) :
    patchImage id pinned images = (images, ImageApiResult.notFound "Image not found") ∧
    deleteImage id images = (images, ImageApiResult.notFound "Image not found") := by
  have hfind : images.find? (fun img => img.id = id) = none := by
    rw [List.find?_eq_none]
    intro img hmem
    simp only [decide_eq_true_eq]
    exact h img hmem
  constructor
  · simp [patchImage, hfind]
  · simp [deleteImage, hfind]

/-- Witness for C9 at a store holding one image with a different id. -/
theorem unknown_image_id_not_found_witness :
    patchImage "nope" (some true) [imgFixture] =
      ([imgFixture], ImageApiResult.notFound "Image not found") ∧
    deleteImage "nope" [imgFixture] =
      ([imgFixture], ImageApiResult.notFound "Image not found") :=
  unknown_image_id_not_found "nope" (some true) [imgFixture] (by decide)

/-- C10.  A partial config update never writes a falsy value: every body
field that is absent or falsy keeps the previous value (given the session
invariant that the stored phase is valid), a window field that would end up
falsy is restored to its default, and the fields the route does not name
(`transcriptWindowMinutes`, `languageMode`, `workshopType`) are unchanged
(the transcript window also passing through the falsy-restore). -/
theorem config_falsy_fields_retained (c : Config) (b : ConfigBody)
    (hphase : PHASES.contains c.phase = true) :
    ((b.phase = none ∨ b.phase = some "") → (applyConfigUpdate c b).phase = c.phase) ∧
    ((b.autoIntervalMinutes = none ∨ b.autoIntervalMinutes = some 0) →
      (applyConfigUpdate c b).autoIntervalMinutes = c.autoIntervalMinutes) ∧
    ((b.imageSize = none ∨ b.imageSize = some "") →
      (applyConfigUpdate c b).imageSize = c.imageSize) ∧
    ((b.stylePreset = none ∨ b.stylePreset = some "") →
      (applyConfigUpdate c b).stylePreset = c.stylePreset) ∧
    ((b.summarizationWindowMinutes = none ∨ b.summarizationWindowMinutes = some 0) →
      (applyConfigUpdate c b).summarizationWindowMinutes =
        (if c.summarizationWindowMinutes = 0 then defaultConfig.summarizationWindowMinutes
         else c.summarizationWindowMinutes)) ∧
    ((applyConfigUpdate c b).transcriptWindowMinutes =
      (if c.transcriptWindowMinutes = 0 then defaultConfig.transcriptWindowMinutes
       else c.transcriptWindowMinutes)) ∧
    (applyConfigUpdate c b).languageMode = c.languageMode ∧
    (applyConfigUpdate c b).workshopType = c.workshopType := by
  refine ⟨?_, ?_, ?_, ?_, ?_, ?_, ?_, ?_⟩
  · intro hb
    have hj : jsOrString b.phase c.phase = c.phase := by
      rcases hb with hb | hb <;> simp [jsOrString, hb]
    unfold applyConfigUpdate
    rw [setSessionConfig_phase]
    dsimp only
    rw [hj, if_pos hphase]
  · intro hb
    have hj : jsOrNat b.autoIntervalMinutes c.autoIntervalMinutes = c.autoIntervalMinutes := by
      rcases hb with hb | hb <;> simp [jsOrNat, hb]
    unfold applyConfigUpdate
    rw [setSessionConfig_autoInterval]
    exact hj
  · intro hb
    have hj : jsOrString b.imageSize c.imageSize = c.imageSize := by
      rcases hb with hb | hb <;> simp [jsOrString, hb]
    unfold applyConfigUpdate
    rw [(setSessionConfig_rest _).2.2.1]
    exact hj
  · intro hb
    have hj : jsOrString b.stylePreset c.stylePreset = c.stylePreset := by
      rcases hb with hb | hb <;> simp [jsOrString, hb]
    unfold applyConfigUpdate
    rw [(setSessionConfig_rest _).2.2.2]
    exact hj
  · intro hb
    have hj : jsOrNat b.summarizationWindowMinutes c.summarizationWindowMinutes =
        c.summarizationWindowMinutes := by
      rcases hb with hb | hb <;> simp [jsOrNat, hb]
    unfold applyConfigUpdate
    rw [setSessionConfig_summWindow]
    dsimp only
    rw [hj]
  · unfold applyConfigUpdate
    rw [setSessionConfig_transcriptWindow]
  · unfold applyConfigUpdate
    rw [(setSessionConfig_rest _).1]
  · unfold applyConfigUpdate
    rw [(setSessionConfig_rest _).2.1]

/-- Witness for C10: an all-falsy update body over the default config. -/
theorem config_falsy_fields_retained_witness :
    (applyConfigUpdate defaultConfig falsyBody).phase = "Vision" ∧
    (applyConfigUpdate defaultConfig falsyBody).autoIntervalMinutes = 5 ∧
    (applyConfigUpdate defaultConfig falsyBody).stylePreset = defaultConfig.stylePreset ∧
    (applyConfigUpdate defaultConfig falsyBody).languageMode = "auto" := by
  have h := config_falsy_fields_retained defaultConfig falsyBody (by decide)
  refine ⟨?_, ?_, ?_, ?_⟩
  · rw [h.1 (Or.inr rfl)]
    rfl
  · rw [h.2.1 (Or.inr rfl)]
    rfl
  · rw [h.2.2.2.1 (Or.inr rfl)]
  · rw [h.2.2.2.2.2.2.1]
    rfl

end AIIllustrator
